import Mathlib

/-!
Gralloc handle accessors (`gralloc_handle.h`).

A shallow embedding of the inline functions of `src/gralloc_handle.h`.

* A `buffer_handle_t` is a pointer: `none` is `NULL`, `some hnd` points to a
  container whose current contents are the record `hnd`.
* A function that writes through the pointer returns the new contents of the
  container (state passing); a getter reads the contents.
* C `int` values are mathematical integers (`Int`); the functions of this file
  only copy them, so no wrap-around can occur, except in the one mixed
  comparison of `gralloc_handle_validate_taged`, where the conversion of an
  `int` to `size_t` is written out. Pointer values are addresses (`Nat`) and
  each cast to `uintptr_t` is written out as a reduction modulo `2 ^ ptrBits`.
* `native_handle_create`, `native_handle_delete` (libcutils) and the constants
  of `gralloc_priv.h` are not part of the source file; they are parameters.
-/

namespace Gralloc

/-! ## Platform parameters -/

/-- The two Android data models: 32-bit and 64-bit pointers, `int` is 32 bits in both. -/
inductive ABI where
  | ilp32
  | lp64
deriving DecidableEq, Repr

/-- Width in bits of `uintptr_t` and `size_t`. -/
def ABI.ptrBits : ABI → Nat
  | .ilp32 => 32
  | .lp64 => 64

/-- The constants that `gralloc_handle.h` takes from `gralloc_priv.h`, which is not
among the sources. They are taken as `int` constant expressions. -/
structure Platform where
  abi : ABI
  GRALLOC_PRIVATE_HANDLE_NUM_FDS : Int
  GRALLOC_PRIVATE_HANDLE_NUM_INTS : Int
  GRALLOC_PRIVATE_HANDLE_MAGIC : Int
deriving DecidableEq, Repr

/-- Smallest and largest value of a C `int`. -/
def INT_MIN : Int := -2147483648
def INT_MAX : Int := 2147483647

/-- A mathematical integer that a C `int` can hold. -/
def isInt (v : Int) : Prop := INT_MIN ≤ v ∧ v ≤ INT_MAX

instance (v : Int) : Decidable (isInt v) := by
  unfold isInt; infer_instance

/-- The value of `EINVAL` in `<errno.h>` (Linux, Android). -/
def EINVAL : Int := 22

/-- `sizeof(int)`. -/
def sizeof_int : Nat := 4

/-- Conversion of an `int` to `size_t`, as the usual arithmetic conversions do when an
`int` is compared with the result of `sizeof`. -/
def to_size_t (abi : ABI) (v : Int) : Nat := (v % ((2 ^ abi.ptrBits : Nat) : Int)).toNat

/-- The cast `(uintptr_t)p` of an address. -/
def to_uintptr_t (abi : ABI) (p : Nat) : Nat := p % 2 ^ abi.ptrBits

/-! ## Data model -/

/-- Modelled from the spec: the generic header `native_handle_t` of
`<cutils/native_handle.h>`, which is not among the sources: "version, count of file
descriptors, count of plain integers". Its flexible array member `data` is the
payload, which `private_handle_t` overlays with named fields. -/
structure native_handle_t where
  version : Int
  numFds : Int
  numInts : Int
deriving DecidableEq, Repr

/-- Modelled from the spec: `struct private_handle_t` of `gralloc_priv.h`, which is not
among the sources: the generic header first, then the payload fields `fd`, `magic`,
`width`, `height`, `format`, `stride`, `usage`, `pid`, `data`, the last one an
address-sized unsigned integer. The field names are those the source file uses. -/
structure private_handle_t where
  nativeHandle : native_handle_t
  fd : Int
  magic : Int
  width : Int
  height : Int
  format : Int
  stride : Int
  usage : Int
  pid : Int
  data : Nat
deriving DecidableEq, Repr

/-- The source's name for the structure: `typedef struct private_handle_t gralloc_handle_t`. -/
abbrev gralloc_handle_t := private_handle_t

/-- A `buffer_handle_t` is a pointer to the container; `none` is the null pointer. -/
abbrev buffer_handle_t := Option private_handle_t

/-- `sizeof(native_handle_t)`, the operand `sizeof(hnd->nativeHandle)` of the validator:
three `int`s, the flexible array member adds nothing. -/
def sizeof_native_handle_t : Nat := 3 * sizeof_int

/-- Rounds `n` up to a multiple of `a`. -/
def alignUp (n a : Nat) : Nat := (n + a - 1) / a * a

/-- Modelled from the spec: `sizeof(struct private_handle_t)`, the declared total size
of the gralloc handle structure, for the layout the spec gives: the header, eight
`int` fields and the address-sized `data` at its natural alignment. -/
def sizeof_private_handle_t (abi : ABI) : Nat :=
  let ptrBytes := abi.ptrBits / 8
  let dataOffset := alignUp (sizeof_native_handle_t + 8 * sizeof_int) ptrBytes
  alignUp (dataOffset + ptrBytes) ptrBytes

/-- What one `ALOGE` call of the validator prints: the call site and the four
inspected fields. -/
structure Diagnostic where
  func : String
  line : Int
  version : Int
  numInts : Int
  numFds : Int
  magic : Int
deriving DecidableEq, Repr

/-! ## The functions of `gralloc_handle.h` -/

/-- The `memset(hnd->nativeHandle.data, 0, (numFds + numInts) * sizeof(int))` of
`gralloc_handle_create`: the payload behind the header is zero-filled, the header is
left as the allocator wrote it. -/
def memset_payload (hnd : private_handle_t) : private_handle_t :=
  { nativeHandle := hnd.nativeHandle
    fd := 0, magic := 0, width := 0, height := 0, format := 0
    stride := 0, usage := 0, pid := 0, data := 0 }

/-- `gralloc_handle_create`. The allocator `native_handle_create` is a parameter: given
`numFds` and `numInts` it returns `none` (`NULL`) or the contents of the fresh container,
its header as the allocator wrote it and its payload arbitrary. -/
def gralloc_handle_create (P : Platform)
    (native_handle_create : Int → Int → Option private_handle_t)
    (width height format usage : Int) : buffer_handle_t :=
  let numFds := P.GRALLOC_PRIVATE_HANDLE_NUM_FDS
  let numInts := P.GRALLOC_PRIVATE_HANDLE_NUM_INTS
  match native_handle_create numFds numInts with
  | none => none
  | some hnd =>
    let hnd := memset_payload hnd
    let hnd := { hnd with fd := -1 }
    let hnd := { hnd with magic := P.GRALLOC_PRIVATE_HANDLE_MAGIC }
    let hnd := { hnd with width := width }
    let hnd := { hnd with height := height }
    let hnd := { hnd with format := format }
    let hnd := { hnd with stride := 0 }
    let hnd := { hnd with usage := usage }
    let hnd := { hnd with pid := 0 }
    let hnd := { hnd with data := 0 }
    some hnd

/-- `gralloc_handle_free`, for a non-null handle: the tag is cleared, then the container
is handed to `native_handle_delete`, a parameter. The compiler barrier between the two
has no effect on a sequential execution. The result is whatever the release returns;
with a release that leaves the container in place (`id`) it is the container as released. -/
def gralloc_handle_free {α : Type} (native_handle_delete : private_handle_t → α)
    (hnd : private_handle_t) : α :=
  let hnd := { hnd with magic := 0 }
  native_handle_delete hnd

/-- `gralloc_handle_validate_taged`: the error code returned and the diagnostics logged. -/
def gralloc_handle_validate_taged (P : Platform) (handle : buffer_handle_t)
    (func : String) (line : Int) : Int × List Diagnostic :=
  match handle with
  | none => (0, [])
  | some hnd =>
    if to_size_t P.abi hnd.nativeHandle.version ≠ sizeof_native_handle_t ∨
        hnd.nativeHandle.numInts ≠ P.GRALLOC_PRIVATE_HANDLE_NUM_INTS ∨
        hnd.nativeHandle.numFds ≠ P.GRALLOC_PRIVATE_HANDLE_NUM_FDS ∨
        hnd.magic ≠ P.GRALLOC_PRIVATE_HANDLE_MAGIC then
      (-EINVAL,
        [{ func := func, line := line, version := hnd.nativeHandle.version
           numInts := hnd.nativeHandle.numInts, numFds := hnd.nativeHandle.numFds
           magic := hnd.magic }])
    else
      (0, [])

/-- `gralloc_handle_fd`. -/
def gralloc_handle_fd (hnd : private_handle_t) : Int := hnd.fd

/-- `gralloc_handle_set_fd`. -/
def gralloc_handle_set_fd (hnd : private_handle_t) (fd : Int) : private_handle_t :=
  { hnd with fd := fd }

/-- `gralloc_handle_width`. -/
def gralloc_handle_width (hnd : private_handle_t) : Int := hnd.width

/-- `gralloc_handle_height`. -/
def gralloc_handle_height (hnd : private_handle_t) : Int := hnd.height

/-- `gralloc_handle_format`. -/
def gralloc_handle_format (hnd : private_handle_t) : Int := hnd.format

/-- `gralloc_handle_usage`. -/
def gralloc_handle_usage (hnd : private_handle_t) : Int := hnd.usage

/-- `gralloc_handle_stride`. -/
def gralloc_handle_stride (hnd : private_handle_t) : Int := hnd.stride

/-- `gralloc_handle_set_stride`. -/
def gralloc_handle_set_stride (hnd : private_handle_t) (stride : Int) : private_handle_t :=
  { hnd with stride := stride }

/-- `gralloc_handle_data_owner`. -/
def gralloc_handle_data_owner (hnd : private_handle_t) : Int := hnd.pid

/-- `gralloc_handle_data`: the stored field cast to `uintptr_t` and then to a pointer. -/
def gralloc_handle_data (P : Platform) (hnd : private_handle_t) : Nat :=
  to_uintptr_t P.abi hnd.data

/-- `gralloc_handle_set_data`: the pointer cast to `uintptr_t` is stored, then the owner. -/
def gralloc_handle_set_data (P : Platform) (hnd : private_handle_t)
    (data : Nat) (data_owner : Int) : private_handle_t :=
  let hnd := { hnd with data := to_uintptr_t P.abi data }
  let hnd := { hnd with pid := data_owner }
  hnd

/-! ## Auxiliary definitions for the statements -/

/-- One call of a mutator of the module, with its arguments. -/
inductive Mutation where
  | set_fd (fd : Int)
  | set_stride (stride : Int)
  | set_data (data : Nat) (data_owner : Int)
deriving DecidableEq, Repr

/-- Performs one mutator call on the container. -/
def Mutation.apply (P : Platform) (hnd : private_handle_t) : Mutation → private_handle_t
  | .set_fd fd => gralloc_handle_set_fd hnd fd
  | .set_stride stride => gralloc_handle_set_stride hnd stride
  | .set_data data data_owner => gralloc_handle_set_data P hnd data data_owner

/-- Performs a finite sequence of mutator calls, first to last. -/
def applyMutations (P : Platform) (hnd : private_handle_t) (ms : List Mutation) :
    private_handle_t :=
  ms.foldl (Mutation.apply P) hnd

/-- A 64-bit platform with one descriptor slot, used for the concrete instances. -/
def android64 : Platform :=
  { abi := .lp64
    GRALLOC_PRIVATE_HANDLE_NUM_FDS := 1
    GRALLOC_PRIVATE_HANDLE_NUM_INTS := 10
    GRALLOC_PRIVATE_HANDLE_MAGIC := 0x3141592 }

/-- Uninitialised payload, as an allocator may leave it. -/
def garbage (h : native_handle_t) : private_handle_t :=
  { nativeHandle := h
    fd := 7, magic := -5, width := 11, height := 13, format := 17
    stride := 19, usage := 23, pid := 29, data := 31 }

/-- An allocator in the manner of libcutils: it always succeeds and writes the header
(`version = sizeof(native_handle_t)`, the counts as requested), nothing else. -/
def cutils_native_handle_create (numFds numInts : Int) : Option private_handle_t :=
  some (garbage { version := sizeof_native_handle_t, numFds := numFds, numInts := numInts })

/-- A container of `android64` with a well-formed header, a live tag and arbitrary
other payload. -/
def sample_handle : private_handle_t :=
  { garbage { version := 12, numFds := 1, numInts := 10 } with magic := 0x3141592 }

/-- The header of the container, if there is one, holds a C `int` in `version`. -/
def version_is_int : buffer_handle_t → Prop
  | none => True
  | some hnd => isInt hnd.nativeHandle.version

instance (handle : buffer_handle_t) : Decidable (version_is_int handle) := by
  cases handle <;> unfold version_is_int <;> infer_instance

/-- The container `sample_handle` with `version` set to the declared total size of the
gralloc handle structure of `android64`. -/
def total_size_handle : private_handle_t :=
  { sample_handle with nativeHandle := { version := 56, numFds := 1, numInts := 10 } }

/-- An allocator that is out of memory. -/
def failing_native_handle_create (_numFds _numInts : Int) : Option private_handle_t :=
  none

/-- `gralloc_handle_validate_taged` seen as a step on the container behind the handle:
the contents after the call, then what the call returns and logs. The body reads
`hnd->nativeHandle.version`, `numInts`, `numFds` and `hnd->magic` and assigns through the
pointer nowhere, so the contents after the call are those before it. -/
def gralloc_handle_validate_taged_step (P : Platform) (handle : buffer_handle_t)
    (func : String) (line : Int) : buffer_handle_t × Int × List Diagnostic :=
  (handle, gralloc_handle_validate_taged P handle func line)

/-- Rewrites the call site of a diagnostic, leaving the printed field values. -/
def Diagnostic.at_site (func : String) (line : Int) (d : Diagnostic) : Diagnostic :=
  { d with func := func, line := line }

/-! ## Auxiliary lemmas -/

theorem sizeof_native_handle_t_eq : sizeof_native_handle_t = 12 := rfl

/-- For a C `int`, the converted value equals `sizeof(native_handle_t)` exactly when the
`int` itself does: the conversion to `size_t` neither creates nor hides a match. -/
theorem to_size_t_eq_sizeof_iff (abi : ABI) (v : Int) (hv : isInt v) :
    to_size_t abi v = sizeof_native_handle_t ↔ v = (sizeof_native_handle_t : Int) := by
  unfold isInt INT_MIN INT_MAX at hv
  rw [sizeof_native_handle_t_eq]
  cases abi <;> simp only [to_size_t, ABI.ptrBits] <;> norm_num <;> omega

/-- The return value of the validator on a non-null handle, as one conditional. -/
theorem validate_taged_some_fst (P : Platform) (hnd : private_handle_t)
    (func : String) (line : Int) :
    (gralloc_handle_validate_taged P (some hnd) func line).1 =
      if to_size_t P.abi hnd.nativeHandle.version = sizeof_native_handle_t ∧
          hnd.nativeHandle.numInts = P.GRALLOC_PRIVATE_HANDLE_NUM_INTS ∧
          hnd.nativeHandle.numFds = P.GRALLOC_PRIVATE_HANDLE_NUM_FDS ∧
          hnd.magic = P.GRALLOC_PRIVATE_HANDLE_MAGIC then 0 else -EINVAL := by
  unfold gralloc_handle_validate_taged
  by_cases h1 : to_size_t P.abi hnd.nativeHandle.version = sizeof_native_handle_t <;>
  by_cases h2 : hnd.nativeHandle.numInts = P.GRALLOC_PRIVATE_HANDLE_NUM_INTS <;>
  by_cases h3 : hnd.nativeHandle.numFds = P.GRALLOC_PRIVATE_HANDLE_NUM_FDS <;>
  by_cases h4 : hnd.magic = P.GRALLOC_PRIVATE_HANDLE_MAGIC <;>
  simp [h1, h2, h3, h4]

theorem neg_EINVAL_ne_zero : -EINVAL ≠ 0 := by decide

/-- The container that a successful `gralloc_handle_create` returns, field by field. -/
theorem create_some (P : Platform) (native_handle_create : Int → Int → Option private_handle_t)
    (width height format usage : Int) (raw : private_handle_t)
    (halloc : native_handle_create P.GRALLOC_PRIVATE_HANDLE_NUM_FDS
      P.GRALLOC_PRIVATE_HANDLE_NUM_INTS = some raw) :
    gralloc_handle_create P native_handle_create width height format usage =
      some { nativeHandle := raw.nativeHandle
             fd := -1, magic := P.GRALLOC_PRIVATE_HANDLE_MAGIC
             width := width, height := height, format := format
             stride := 0, usage := usage, pid := 0, data := 0 } := by
  simp [gralloc_handle_create, halloc, memset_payload]

/-- A single mutator call leaves the header, the tag and the four creation-time
attributes as they were. -/
theorem Mutation.apply_keeps (P : Platform) (hnd : private_handle_t) (m : Mutation) :
    (m.apply P hnd).nativeHandle = hnd.nativeHandle ∧ (m.apply P hnd).magic = hnd.magic ∧
    (m.apply P hnd).width = hnd.width ∧ (m.apply P hnd).height = hnd.height ∧
    (m.apply P hnd).format = hnd.format ∧ (m.apply P hnd).usage = hnd.usage := by
  cases m <;> exact ⟨rfl, rfl, rfl, rfl, rfl, rfl⟩

/-- Any finite sequence of mutator calls leaves the header, the tag and the four
creation-time attributes as they were. -/
theorem applyMutations_keeps (P : Platform) (ms : List Mutation) :
    ∀ hnd : private_handle_t,
      (applyMutations P hnd ms).nativeHandle = hnd.nativeHandle ∧
      (applyMutations P hnd ms).magic = hnd.magic ∧
      (applyMutations P hnd ms).width = hnd.width ∧
      (applyMutations P hnd ms).height = hnd.height ∧
      (applyMutations P hnd ms).format = hnd.format ∧
      (applyMutations P hnd ms).usage = hnd.usage := by
  induction ms with
  | nil => intro hnd; exact ⟨rfl, rfl, rfl, rfl, rfl, rfl⟩
  | cons m ms ih =>
    intro hnd
    obtain ⟨a1, a2, a3, a4, a5, a6⟩ := Mutation.apply_keeps P hnd m
    obtain ⟨b1, b2, b3, b4, b5, b6⟩ := ih (m.apply P hnd)
    simp only [applyMutations, List.foldl_cons] at b1 b2 b3 b4 b5 b6 ⊢
    exact ⟨b1.trans a1, b2.trans a2, b3.trans a3, b4.trans a4, b5.trans a5, b6.trans a6⟩

/-- A representable address survives the cast to `uintptr_t`. -/
theorem to_uintptr_t_of_lt (abi : ABI) (p : Nat) (hp : p < 2 ^ abi.ptrBits) :
    to_uintptr_t abi p = p :=
  Nat.mod_eq_of_lt hp

theorem to_uintptr_t_idem (abi : ABI) (p : Nat) :
    to_uintptr_t abi (to_uintptr_t abi p) = to_uintptr_t abi p :=
  Nat.mod_mod _ _

/-- The return value of the validator depends on the header and the tag only, not on
the other payload fields and not on the call site. -/
theorem validate_taged_fst_congr (P : Platform) (a b : private_handle_t)
    (func1 func2 : String) (line1 line2 : Int)
    (hheader : a.nativeHandle = b.nativeHandle) (htag : a.magic = b.magic) :
    (gralloc_handle_validate_taged P (some a) func1 line1).1
      = (gralloc_handle_validate_taged P (some b) func2 line2).1 := by
  rw [validate_taged_some_fst, validate_taged_some_fst, hheader, htag]

/-! ## Creation and validation -/

/-- C1: whenever the underlying `native_handle_create` succeeds, `gralloc_handle_create`
returns a handle on which the four immutable getters give back exactly the `width`,
`height`, `format` and `usage` that were passed in. -/
theorem create_then_immutable_getters (P : Platform)
    (native_handle_create : Int → Int → Option private_handle_t)
    (width height format usage : Int) (raw : private_handle_t)
    (halloc : native_handle_create P.GRALLOC_PRIVATE_HANDLE_NUM_FDS
      P.GRALLOC_PRIVATE_HANDLE_NUM_INTS = some raw) :
    ∃ hnd, gralloc_handle_create P native_handle_create width height format usage = some hnd ∧
      gralloc_handle_width hnd = width ∧ gralloc_handle_height hnd = height ∧
      gralloc_handle_format hnd = format ∧ gralloc_handle_usage hnd = usage :=
  ⟨_, create_some P native_handle_create width height format usage raw halloc,
    rfl, rfl, rfl, rfl⟩

theorem create_then_immutable_getters_witness :
    cutils_native_handle_create android64.GRALLOC_PRIVATE_HANDLE_NUM_FDS
        android64.GRALLOC_PRIVATE_HANDLE_NUM_INTS
      = some (garbage { version := 12, numFds := 1, numInts := 10 }) ∧
    ∃ hnd, gralloc_handle_create android64 cutils_native_handle_create 1920 1080 (-3) 51
        = some hnd ∧
      gralloc_handle_width hnd = 1920 ∧ gralloc_handle_height hnd = 1080 ∧
      gralloc_handle_format hnd = -3 ∧ gralloc_handle_usage hnd = 51 :=
  ⟨rfl, create_then_immutable_getters android64 cutils_native_handle_create 1920 1080 (-3) 51
    (garbage { version := 12, numFds := 1, numInts := 10 }) rfl⟩

/-- C2: for a handle whose header holds a C `int` in `version`,
`gralloc_handle_validate_taged` returns 0 if and only if the handle is null or its
`version` equals `sizeof(native_handle_t)`, its `numInts` and `numFds` equal the two
platform constants and its `magic` equals `GRALLOC_PRIVATE_HANDLE_MAGIC`; in every other
case it returns exactly `-EINVAL`, which is not 0; and on the null handle it returns 0. -/
theorem validate_taged_zero_iff (P : Platform) (handle : buffer_handle_t)
    (func : String) (line : Int) (hint : version_is_int handle) :
    ((gralloc_handle_validate_taged P handle func line).1 = 0 ↔
      (handle = none ∨ ∃ hnd, handle = some hnd ∧
        hnd.nativeHandle.version = (sizeof_native_handle_t : Int) ∧
        hnd.nativeHandle.numInts = P.GRALLOC_PRIVATE_HANDLE_NUM_INTS ∧
        hnd.nativeHandle.numFds = P.GRALLOC_PRIVATE_HANDLE_NUM_FDS ∧
        hnd.magic = P.GRALLOC_PRIVATE_HANDLE_MAGIC)) ∧
    ((gralloc_handle_validate_taged P handle func line).1 ≠ 0 →
      (gralloc_handle_validate_taged P handle func line).1 = -EINVAL) ∧
    (gralloc_handle_validate_taged P none func line).1 = 0 := by
  refine ⟨?_, ?_, rfl⟩
  · cases handle with
    | none => simp [gralloc_handle_validate_taged]
    | some hnd =>
      have hv : isInt hnd.nativeHandle.version := hint
      have hsz := to_size_t_eq_sizeof_iff P.abi _ hv
      rw [validate_taged_some_fst]
      constructor
      · intro h
        by_cases hc : to_size_t P.abi hnd.nativeHandle.version = sizeof_native_handle_t ∧
            hnd.nativeHandle.numInts = P.GRALLOC_PRIVATE_HANDLE_NUM_INTS ∧
            hnd.nativeHandle.numFds = P.GRALLOC_PRIVATE_HANDLE_NUM_FDS ∧
            hnd.magic = P.GRALLOC_PRIVATE_HANDLE_MAGIC
        · exact Or.inr ⟨hnd, rfl, hsz.1 hc.1, hc.2⟩
        · rw [if_neg hc] at h
          exact absurd h neg_EINVAL_ne_zero
      · rintro (h | ⟨hnd2, heq, hc⟩)
        · cases h
        · cases heq
          rw [if_pos ⟨hsz.2 hc.1, hc.2⟩]
  · cases handle with
    | none => intro h; exact absurd rfl h
    | some hnd =>
      rw [validate_taged_some_fst]
      split
      · intro h; exact absurd rfl h
      · intro _; rfl

theorem validate_taged_zero_iff_witness :
    version_is_int (some { sample_handle with nativeHandle := { version := -1, numFds := 1, numInts := 10 } }) ∧
    (gralloc_handle_validate_taged android64
      (some { sample_handle with nativeHandle := { version := -1, numFds := 1, numInts := 10 } })
      "caller" 42).1 = -EINVAL :=
  ⟨by decide,
    (validate_taged_zero_iff android64
      (some { sample_handle with nativeHandle := { version := -1, numFds := 1, numInts := 10 } })
      "caller" 42 (by decide)).2.1 (by decide)⟩

/-- C3: if the allocator succeeds and returns a header with
`version = sizeof(native_handle_t)` and `numFds`, `numInts` as requested, then
`gralloc_handle_create` returns a non-null handle on which validation, from any call
site, returns 0 and logs nothing. -/
theorem validate_fresh_handle (P : Platform)
    (native_handle_create : Int → Int → Option private_handle_t)
    (width height format usage : Int) (raw : private_handle_t)
    (func : String) (line : Int)
    (halloc : native_handle_create P.GRALLOC_PRIVATE_HANDLE_NUM_FDS
      P.GRALLOC_PRIVATE_HANDLE_NUM_INTS = some raw)
    (hversion : raw.nativeHandle.version = (sizeof_native_handle_t : Int))
    (hnumFds : raw.nativeHandle.numFds = P.GRALLOC_PRIVATE_HANDLE_NUM_FDS)
    (hnumInts : raw.nativeHandle.numInts = P.GRALLOC_PRIVATE_HANDLE_NUM_INTS) :
    ∃ hnd, gralloc_handle_create P native_handle_create width height format usage = some hnd ∧
      gralloc_handle_validate_taged P (some hnd) func line = (0, []) := by
  refine ⟨_, create_some P native_handle_create width height format usage raw halloc, ?_⟩
  have hv : isInt raw.nativeHandle.version := by
    rw [hversion]; decide
  have hsz := (to_size_t_eq_sizeof_iff P.abi _ hv).2 hversion
  simp [gralloc_handle_validate_taged, hsz, hnumFds, hnumInts]

theorem validate_fresh_handle_witness :
    (cutils_native_handle_create android64.GRALLOC_PRIVATE_HANDLE_NUM_FDS
        android64.GRALLOC_PRIVATE_HANDLE_NUM_INTS
      = some (garbage { version := 12, numFds := 1, numInts := 10 }) ∧
     (garbage { version := 12, numFds := 1, numInts := 10 }).nativeHandle.version
      = (sizeof_native_handle_t : Int)) ∧
    ∃ hnd, gralloc_handle_create android64 cutils_native_handle_create 1920 1080 1 2
        = some hnd ∧
      gralloc_handle_validate_taged android64 (some hnd) "caller" 42 = (0, []) :=
  ⟨⟨rfl, rfl⟩,
    validate_fresh_handle android64 cutils_native_handle_create 1920 1080 1 2
      (garbage { version := 12, numFds := 1, numInts := 10 }) "caller" 42 rfl rfl rfl rfl⟩

/-! ## Destruction -/

/-- C4: on a platform whose tag constant is not 0, for every non-null handle, valid or not,
the container that `gralloc_handle_free` leaves behind when the release keeps it in place
has `magic = 0`, and validation of it returns `-EINVAL`, which is not 0; and whatever the
release routine is, it is applied to that tag-cleared container, so the tag is cleared
before the container is released. -/
theorem free_clears_tag_first (P : Platform) (hnd : private_handle_t)
    (func : String) (line : Int) (hmagic : P.GRALLOC_PRIVATE_HANDLE_MAGIC ≠ 0) :
    (gralloc_handle_free id hnd).magic = 0 ∧
    (gralloc_handle_validate_taged P (some (gralloc_handle_free id hnd)) func line).1
      = -EINVAL ∧
    (gralloc_handle_validate_taged P (some (gralloc_handle_free id hnd)) func line).1 ≠ 0 ∧
    (∀ (α : Type) (native_handle_delete : private_handle_t → α),
      gralloc_handle_free native_handle_delete hnd
        = native_handle_delete (gralloc_handle_free id hnd)) := by
  have hret : (gralloc_handle_validate_taged P (some (gralloc_handle_free id hnd)) func line).1
      = -EINVAL := by
    rw [validate_taged_some_fst]
    apply if_neg
    rintro ⟨_, _, _, h4⟩
    exact hmagic h4.symm
  refine ⟨rfl, hret, ?_, fun _ _ => rfl⟩
  rw [hret]
  exact neg_EINVAL_ne_zero

theorem free_clears_tag_first_witness :
    android64.GRALLOC_PRIVATE_HANDLE_MAGIC ≠ 0 ∧
    (gralloc_handle_validate_taged android64 (some sample_handle) "caller" 42).1 = 0 ∧
    (gralloc_handle_free id sample_handle).magic = 0 ∧
    (gralloc_handle_validate_taged android64 (some (gralloc_handle_free id sample_handle))
      "caller" 42).1 = -EINVAL :=
  ⟨by decide, by decide,
    (free_clears_tag_first android64 sample_handle "caller" 42 (by decide)).1,
    (free_clears_tag_first android64 sample_handle "caller" 42 (by decide)).2.1⟩

/-! ## Defaults after creation -/

/-- C5: whenever the allocator succeeds, whatever the four arguments and whatever the
allocator left in the payload, the handle returned by `gralloc_handle_create` has
stride 0, fd -1, a null data pointer and data owner 0. -/
theorem create_defaults (P : Platform)
    (native_handle_create : Int → Int → Option private_handle_t)
    (width height format usage : Int) (raw : private_handle_t)
    (halloc : native_handle_create P.GRALLOC_PRIVATE_HANDLE_NUM_FDS
      P.GRALLOC_PRIVATE_HANDLE_NUM_INTS = some raw) :
    ∃ hnd, gralloc_handle_create P native_handle_create width height format usage = some hnd ∧
      gralloc_handle_stride hnd = 0 ∧ gralloc_handle_fd hnd = -1 ∧
      gralloc_handle_data P hnd = 0 ∧ gralloc_handle_data_owner hnd = 0 := by
  refine ⟨_, create_some P native_handle_create width height format usage raw halloc,
    rfl, rfl, ?_, rfl⟩
  simp [gralloc_handle_data, to_uintptr_t]

theorem create_defaults_witness :
    cutils_native_handle_create android64.GRALLOC_PRIVATE_HANDLE_NUM_FDS
        android64.GRALLOC_PRIVATE_HANDLE_NUM_INTS
      = some (garbage { version := 12, numFds := 1, numInts := 10 }) ∧
    ∃ hnd, gralloc_handle_create android64 cutils_native_handle_create 1920 1080 1 2
        = some hnd ∧
      gralloc_handle_stride hnd = 0 ∧ gralloc_handle_fd hnd = -1 ∧
      gralloc_handle_data android64 hnd = 0 ∧ gralloc_handle_data_owner hnd = 0 :=
  ⟨rfl, create_defaults android64 cutils_native_handle_create 1920 1080 1 2
    (garbage { version := 12, numFds := 1, numInts := 10 }) rfl⟩

/-! ## Mutators -/

/-- C6: no cross-contamination. On every container and for every argument,
`gralloc_handle_set_fd` leaves everything but `fd` as it was, `gralloc_handle_set_stride`
everything but `stride`, and `gralloc_handle_set_data` everything but `data` and `pid`
(header, tag, and every getter of another field read back as before). Consequently,
after a successful create, setting fd, stride and data with owner (the pointer being a
representable address) and then reading every field gives exactly what was created
or set. -/
theorem setters_touch_only_their_fields (P : Platform) (hnd : private_handle_t)
    (fd stride data_owner : Int) (data : Nat) :
    ((gralloc_handle_set_fd hnd fd).nativeHandle = hnd.nativeHandle ∧
      (gralloc_handle_set_fd hnd fd).magic = hnd.magic ∧
      gralloc_handle_width (gralloc_handle_set_fd hnd fd) = gralloc_handle_width hnd ∧
      gralloc_handle_height (gralloc_handle_set_fd hnd fd) = gralloc_handle_height hnd ∧
      gralloc_handle_format (gralloc_handle_set_fd hnd fd) = gralloc_handle_format hnd ∧
      gralloc_handle_usage (gralloc_handle_set_fd hnd fd) = gralloc_handle_usage hnd ∧
      gralloc_handle_stride (gralloc_handle_set_fd hnd fd) = gralloc_handle_stride hnd ∧
      gralloc_handle_data_owner (gralloc_handle_set_fd hnd fd)
        = gralloc_handle_data_owner hnd ∧
      (gralloc_handle_set_fd hnd fd).data = hnd.data ∧
      gralloc_handle_data P (gralloc_handle_set_fd hnd fd) = gralloc_handle_data P hnd) ∧
    ((gralloc_handle_set_stride hnd stride).nativeHandle = hnd.nativeHandle ∧
      (gralloc_handle_set_stride hnd stride).magic = hnd.magic ∧
      gralloc_handle_width (gralloc_handle_set_stride hnd stride)
        = gralloc_handle_width hnd ∧
      gralloc_handle_height (gralloc_handle_set_stride hnd stride)
        = gralloc_handle_height hnd ∧
      gralloc_handle_format (gralloc_handle_set_stride hnd stride)
        = gralloc_handle_format hnd ∧
      gralloc_handle_usage (gralloc_handle_set_stride hnd stride)
        = gralloc_handle_usage hnd ∧
      gralloc_handle_fd (gralloc_handle_set_stride hnd stride) = gralloc_handle_fd hnd ∧
      gralloc_handle_data_owner (gralloc_handle_set_stride hnd stride)
        = gralloc_handle_data_owner hnd ∧
      (gralloc_handle_set_stride hnd stride).data = hnd.data ∧
      gralloc_handle_data P (gralloc_handle_set_stride hnd stride)
        = gralloc_handle_data P hnd) ∧
    ((gralloc_handle_set_data P hnd data data_owner).nativeHandle = hnd.nativeHandle ∧
      (gralloc_handle_set_data P hnd data data_owner).magic = hnd.magic ∧
      gralloc_handle_width (gralloc_handle_set_data P hnd data data_owner)
        = gralloc_handle_width hnd ∧
      gralloc_handle_height (gralloc_handle_set_data P hnd data data_owner)
        = gralloc_handle_height hnd ∧
      gralloc_handle_format (gralloc_handle_set_data P hnd data data_owner)
        = gralloc_handle_format hnd ∧
      gralloc_handle_usage (gralloc_handle_set_data P hnd data data_owner)
        = gralloc_handle_usage hnd ∧
      gralloc_handle_fd (gralloc_handle_set_data P hnd data data_owner)
        = gralloc_handle_fd hnd ∧
      gralloc_handle_stride (gralloc_handle_set_data P hnd data data_owner)
        = gralloc_handle_stride hnd) ∧
    (∀ (native_handle_create : Int → Int → Option private_handle_t)
        (width height format usage : Int) (raw : private_handle_t),
      native_handle_create P.GRALLOC_PRIVATE_HANDLE_NUM_FDS
        P.GRALLOC_PRIVATE_HANDLE_NUM_INTS = some raw →
      data < 2 ^ P.abi.ptrBits →
      ∃ created,
        gralloc_handle_create P native_handle_create width height format usage
          = some created ∧
        ∃ final,
          gralloc_handle_set_data P
            (gralloc_handle_set_stride (gralloc_handle_set_fd created fd) stride)
            data data_owner = final ∧
          final.nativeHandle = raw.nativeHandle ∧
          final.magic = P.GRALLOC_PRIVATE_HANDLE_MAGIC ∧
          gralloc_handle_width final = width ∧ gralloc_handle_height final = height ∧
          gralloc_handle_format final = format ∧ gralloc_handle_usage final = usage ∧
          gralloc_handle_fd final = fd ∧ gralloc_handle_stride final = stride ∧
          gralloc_handle_data P final = data ∧
          gralloc_handle_data_owner final = data_owner) := by
  refine ⟨⟨rfl, rfl, rfl, rfl, rfl, rfl, rfl, rfl, rfl, rfl⟩,
    ⟨rfl, rfl, rfl, rfl, rfl, rfl, rfl, rfl, rfl, rfl⟩,
    ⟨rfl, rfl, rfl, rfl, rfl, rfl, rfl, rfl⟩, ?_⟩
  intro native_handle_create width height format usage raw halloc hdata
  refine ⟨_, create_some P native_handle_create width height format usage raw halloc,
    _, rfl, rfl, rfl, rfl, rfl, rfl, rfl, rfl, rfl, ?_, rfl⟩
  simp only [gralloc_handle_data, gralloc_handle_set_data, to_uintptr_t_idem]
  exact to_uintptr_t_of_lt P.abi data hdata

theorem setters_touch_only_their_fields_witness :
    (cutils_native_handle_create android64.GRALLOC_PRIVATE_HANDLE_NUM_FDS
        android64.GRALLOC_PRIVATE_HANDLE_NUM_INTS
      = some (garbage { version := 12, numFds := 1, numInts := 10 }) ∧
     3735928559 < 2 ^ android64.abi.ptrBits) ∧
    ∃ created,
      gralloc_handle_create android64 cutils_native_handle_create 1920 1080 1 2
        = some created ∧
      ∃ final,
        gralloc_handle_set_data android64
          (gralloc_handle_set_stride (gralloc_handle_set_fd created 5) 2048)
          3735928559 77 = final ∧
        final.nativeHandle = (garbage { version := 12, numFds := 1, numInts := 10 }).nativeHandle ∧
        final.magic = android64.GRALLOC_PRIVATE_HANDLE_MAGIC ∧
        gralloc_handle_width final = 1920 ∧ gralloc_handle_height final = 1080 ∧
        gralloc_handle_format final = 1 ∧ gralloc_handle_usage final = 2 ∧
        gralloc_handle_fd final = 5 ∧ gralloc_handle_stride final = 2048 ∧
        gralloc_handle_data android64 final = 3735928559 ∧
        gralloc_handle_data_owner final = 77 :=
  ⟨⟨rfl, by decide⟩,
    (setters_touch_only_their_fields android64 sample_handle 5 2048 77 3735928559).2.2.2
      cutils_native_handle_create 1920 1080 1 2
      (garbage { version := 12, numFds := 1, numInts := 10 }) rfl (by decide)⟩

/-- C7: for every representable pointer value and every owner, null pointer and owner 0
included, after `gralloc_handle_set_data` the getters `gralloc_handle_data` and
`gralloc_handle_data_owner` return exactly that pointer and that owner: the casts through
`uintptr_t` and the address-sized `data` field lose no bits. -/
theorem set_data_then_get (P : Platform) (hnd : private_handle_t)
    (data : Nat) (data_owner : Int) (hdata : data < 2 ^ P.abi.ptrBits) :
    gralloc_handle_data P (gralloc_handle_set_data P hnd data data_owner) = data ∧
    gralloc_handle_data_owner (gralloc_handle_set_data P hnd data data_owner)
      = data_owner := by
  refine ⟨?_, rfl⟩
  simp only [gralloc_handle_data, gralloc_handle_set_data, to_uintptr_t_idem]
  exact to_uintptr_t_of_lt P.abi data hdata

theorem set_data_then_get_witness :
    0 < 2 ^ android64.abi.ptrBits ∧
    gralloc_handle_data android64 (gralloc_handle_set_data android64 sample_handle 0 0) = 0 ∧
    gralloc_handle_data_owner (gralloc_handle_set_data android64 sample_handle 0 0) = 0 :=
  ⟨by decide, set_data_then_get android64 sample_handle 0 0 (by decide)⟩

/-! ## What a validated header guarantees -/

/-- C8, as stated, fails: on `android64` validation accepts `sample_handle`, whose `version`
is 12, while the declared total size of the gralloc handle structure is 56; and the
container that differs from it only in `version = 56` is rejected with `-EINVAL`. -/
theorem validate_version_is_not_total_size :
    (gralloc_handle_validate_taged android64 (some sample_handle) "caller" 42).1 = 0 ∧
    sample_handle.nativeHandle.version ≠ (sizeof_private_handle_t android64.abi : Int) ∧
    total_size_handle.nativeHandle.version = (sizeof_private_handle_t android64.abi : Int) ∧
    (gralloc_handle_validate_taged android64 (some total_size_handle) "caller" 42).1
      = -EINVAL := by
  decide

/-- C8, amended: for every non-null handle (with a C `int` in `version`) that validation
accepts, the `version` of the generic header equals the size of that embedded header,
`sizeof(native_handle_t)`, which is smaller than the declared total size of the gralloc
handle structure, and `numFds`, `numInts` equal `GRALLOC_PRIVATE_HANDLE_NUM_FDS`,
`GRALLOC_PRIVATE_HANDLE_NUM_INTS`. -/
theorem validated_header (P : Platform) (hnd : private_handle_t)
    (func : String) (line : Int) (hint : isInt hnd.nativeHandle.version)
    (hvalid : (gralloc_handle_validate_taged P (some hnd) func line).1 = 0) :
    hnd.nativeHandle.version = (sizeof_native_handle_t : Int) ∧
    hnd.nativeHandle.version < (sizeof_private_handle_t P.abi : Int) ∧
    hnd.nativeHandle.numFds = P.GRALLOC_PRIVATE_HANDLE_NUM_FDS ∧
    hnd.nativeHandle.numInts = P.GRALLOC_PRIVATE_HANDLE_NUM_INTS := by
  rw [validate_taged_some_fst] at hvalid
  by_cases hc : to_size_t P.abi hnd.nativeHandle.version = sizeof_native_handle_t ∧
      hnd.nativeHandle.numInts = P.GRALLOC_PRIVATE_HANDLE_NUM_INTS ∧
      hnd.nativeHandle.numFds = P.GRALLOC_PRIVATE_HANDLE_NUM_FDS ∧
      hnd.magic = P.GRALLOC_PRIVATE_HANDLE_MAGIC
  · have hver := (to_size_t_eq_sizeof_iff P.abi _ hint).1 hc.1
    refine ⟨hver, ?_, hc.2.2.1, hc.2.1⟩
    rw [hver]
    cases P.abi <;> decide
  · rw [if_neg hc] at hvalid
    exact absurd hvalid neg_EINVAL_ne_zero

theorem validated_header_witness :
    (isInt sample_handle.nativeHandle.version ∧
     (gralloc_handle_validate_taged android64 (some sample_handle) "probe" 7).1 = 0) ∧
    sample_handle.nativeHandle.version = (sizeof_native_handle_t : Int) ∧
    sample_handle.nativeHandle.version < (sizeof_private_handle_t android64.abi : Int) ∧
    sample_handle.nativeHandle.numFds = android64.GRALLOC_PRIVATE_HANDLE_NUM_FDS ∧
    sample_handle.nativeHandle.numInts = android64.GRALLOC_PRIVATE_HANDLE_NUM_INTS :=
  ⟨⟨by decide, by decide⟩,
    validated_header android64 sample_handle "probe" 7 (by decide) (by decide)⟩

/-! ## Immutability of the creation-time attributes -/

/-- C9: whenever the allocator succeeds, the handle returned by `gralloc_handle_create`
keeps its width, height, format and usage under every finite sequence of mutator calls
(`set_fd`, `set_stride`, `set_data`, any arguments, any order): the four getters still
return the values given at creation. -/
theorem immutable_under_mutations (P : Platform)
    (native_handle_create : Int → Int → Option private_handle_t)
    (width height format usage : Int) (raw : private_handle_t) (ms : List Mutation)
    (halloc : native_handle_create P.GRALLOC_PRIVATE_HANDLE_NUM_FDS
      P.GRALLOC_PRIVATE_HANDLE_NUM_INTS = some raw) :
    ∃ hnd, gralloc_handle_create P native_handle_create width height format usage = some hnd ∧
      gralloc_handle_width (applyMutations P hnd ms) = width ∧
      gralloc_handle_height (applyMutations P hnd ms) = height ∧
      gralloc_handle_format (applyMutations P hnd ms) = format ∧
      gralloc_handle_usage (applyMutations P hnd ms) = usage := by
  refine ⟨_, create_some P native_handle_create width height format usage raw halloc, ?_⟩
  obtain ⟨_, _, h3, h4, h5, h6⟩ := applyMutations_keeps P ms
    { nativeHandle := raw.nativeHandle
      fd := -1, magic := P.GRALLOC_PRIVATE_HANDLE_MAGIC
      width := width, height := height, format := format
      stride := 0, usage := usage, pid := 0, data := 0 }
  exact ⟨h3, h4, h5, h6⟩

theorem immutable_under_mutations_witness :
    cutils_native_handle_create android64.GRALLOC_PRIVATE_HANDLE_NUM_FDS
        android64.GRALLOC_PRIVATE_HANDLE_NUM_INTS
      = some (garbage { version := 12, numFds := 1, numInts := 10 }) ∧
    ∃ hnd, gralloc_handle_create android64 cutils_native_handle_create 640 480 4 9
        = some hnd ∧
      gralloc_handle_width (applyMutations android64 hnd
        [.set_stride 640, .set_data 4096 1234, .set_fd 3, .set_stride (-1), .set_data 0 0])
        = 640 ∧
      gralloc_handle_height (applyMutations android64 hnd
        [.set_stride 640, .set_data 4096 1234, .set_fd 3, .set_stride (-1), .set_data 0 0])
        = 480 ∧
      gralloc_handle_format (applyMutations android64 hnd
        [.set_stride 640, .set_data 4096 1234, .set_fd 3, .set_stride (-1), .set_data 0 0])
        = 4 ∧
      gralloc_handle_usage (applyMutations android64 hnd
        [.set_stride 640, .set_data 4096 1234, .set_fd 3, .set_stride (-1), .set_data 0 0])
        = 9 :=
  ⟨rfl, immutable_under_mutations android64 cutils_native_handle_create 640 480 4 9
    (garbage { version := 12, numFds := 1, numInts := 10 })
    [.set_stride 640, .set_data 4096 1234, .set_fd 3, .set_stride (-1), .set_data 0 0] rfl⟩

/-! ## Stride -/

/-- C10: on every container and for every `int` stride, negative ones included, after
`gralloc_handle_set_stride` the getter `gralloc_handle_stride` returns exactly that
stride. -/
theorem set_stride_then_get (hnd : private_handle_t) (stride : Int) :
    gralloc_handle_stride (gralloc_handle_set_stride hnd stride) = stride :=
  rfl

/-! ## File descriptor -/

/-- C11: on every container and for every `int` fd, -1 and other negative values
included, after `gralloc_handle_set_fd` the getter `gralloc_handle_fd` returns exactly
that fd. -/
theorem set_fd_then_get (hnd : private_handle_t) (fd : Int) :
    gralloc_handle_fd (gralloc_handle_set_fd hnd fd) = fd :=
  rfl

/-! ## Failure of creation -/

/-- C12: `gralloc_handle_create` returns null exactly when
`native_handle_create(GRALLOC_PRIVATE_HANDLE_NUM_FDS, GRALLOC_PRIVATE_HANDLE_NUM_INTS)`
returns null; whether it fails does not depend on `width`, `height`, `format`, `usage`;
and when the allocator succeeds the result is non-null for every argument quadruple.
A failed call yields no container at all, so nothing has been written. -/
theorem create_null_iff_alloc_null (P : Platform)
    (native_handle_create : Int → Int → Option private_handle_t)
    (width height format usage : Int) :
    (gralloc_handle_create P native_handle_create width height format usage = none ↔
      native_handle_create P.GRALLOC_PRIVATE_HANDLE_NUM_FDS
        P.GRALLOC_PRIVATE_HANDLE_NUM_INTS = none) ∧
    (∀ width2 height2 format2 usage2 : Int,
      (gralloc_handle_create P native_handle_create width height format usage = none ↔
        gralloc_handle_create P native_handle_create width2 height2 format2 usage2
          = none)) ∧
    (native_handle_create P.GRALLOC_PRIVATE_HANDLE_NUM_FDS
        P.GRALLOC_PRIVATE_HANDLE_NUM_INTS ≠ none →
      ∀ width2 height2 format2 usage2 : Int,
        gralloc_handle_create P native_handle_create width2 height2 format2 usage2
          ≠ none) := by
  have key : ∀ w h f u : Int,
      (gralloc_handle_create P native_handle_create w h f u = none ↔
        native_handle_create P.GRALLOC_PRIVATE_HANDLE_NUM_FDS
          P.GRALLOC_PRIVATE_HANDLE_NUM_INTS = none) := by
    intro w h f u
    cases halloc : native_handle_create P.GRALLOC_PRIVATE_HANDLE_NUM_FDS
        P.GRALLOC_PRIVATE_HANDLE_NUM_INTS with
    | none => simp [gralloc_handle_create, halloc]
    | some raw => simp [create_some P native_handle_create w h f u raw halloc]
  refine ⟨key _ _ _ _, fun w2 h2 f2 u2 => (key _ _ _ _).trans (key w2 h2 f2 u2).symm, ?_⟩
  intro hne w2 h2 f2 u2 hnull
  exact hne ((key w2 h2 f2 u2).1 hnull)

theorem create_null_iff_alloc_null_witness :
    cutils_native_handle_create android64.GRALLOC_PRIVATE_HANDLE_NUM_FDS
        android64.GRALLOC_PRIVATE_HANDLE_NUM_INTS ≠ none ∧
    gralloc_handle_create android64 cutils_native_handle_create (-1) 0 (-7) 2147483647
      ≠ none ∧
    gralloc_handle_create android64 failing_native_handle_create 1920 1080 1 2 = none :=
  ⟨by decide,
    (create_null_iff_alloc_null android64 cutils_native_handle_create 0 0 0 0).2.2
      (by decide) (-1) 0 (-7) 2147483647,
    (create_null_iff_alloc_null android64 failing_native_handle_create 1920 1080 1 2).1.2
      rfl⟩

/-! ## Diagnostics -/

/-- C13: the call-site arguments never affect the outcome of validation: for every handle
and every two call sites the returned code is the same, the container behind the handle
is after the call what it was before, and the two logs differ in the call site only. -/
theorem validate_ignores_call_site (P : Platform) (handle : buffer_handle_t)
    (func1 func2 : String) (line1 line2 : Int) :
    (gralloc_handle_validate_taged P handle func1 line1).1
      = (gralloc_handle_validate_taged P handle func2 line2).1 ∧
    (gralloc_handle_validate_taged_step P handle func1 line1).1 = handle ∧
    (gralloc_handle_validate_taged_step P handle func1 line1).2.1
      = (gralloc_handle_validate_taged_step P handle func2 line2).2.1 ∧
    (gralloc_handle_validate_taged P handle func1 line1).2.map
        (Diagnostic.at_site func2 line2)
      = (gralloc_handle_validate_taged P handle func2 line2).2 := by
  cases handle with
  | none => exact ⟨rfl, rfl, rfl, rfl⟩
  | some hnd =>
    have hret := validate_taged_fst_congr P hnd hnd func1 func2 line1 line2 rfl rfl
    refine ⟨hret, rfl, hret, ?_⟩
    simp only [gralloc_handle_validate_taged]
    split <;> rfl

/-! ## Dimensions -/

/-- C14, as stated, fails: on `android64`, with an allocator that succeeds,
`gralloc_handle_create(0, -5, 1, 2)` returns a non-null handle whose width is 0 and whose
height is -5, neither of them positive. -/
theorem create_accepts_nonpositive_dimensions :
    (gralloc_handle_create android64 cutils_native_handle_create 0 (-5) 1 2).isSome = true ∧
    (gralloc_handle_create android64 cutils_native_handle_create 0 (-5) 1 2).map
      gralloc_handle_width = some 0 ∧
    (gralloc_handle_create android64 cutils_native_handle_create 0 (-5) 1 2).map
      gralloc_handle_height = some (-5) ∧
    ¬ ((0 : Int) < 0) ∧ ¬ ((0 : Int) < -5) := by
  decide

/-- C14, amended: whenever the allocator succeeds, whatever the sign of the arguments,
the handle returned by `gralloc_handle_create` has exactly the width and the height that
were passed in, so each of them is positive exactly when the corresponding argument is. -/
theorem create_dimensions_positive_iff (P : Platform)
    (native_handle_create : Int → Int → Option private_handle_t)
    (width height format usage : Int) (raw : private_handle_t)
    (halloc : native_handle_create P.GRALLOC_PRIVATE_HANDLE_NUM_FDS
      P.GRALLOC_PRIVATE_HANDLE_NUM_INTS = some raw) :
    ∃ hnd, gralloc_handle_create P native_handle_create width height format usage = some hnd ∧
      gralloc_handle_width hnd = width ∧
      gralloc_handle_height hnd = height ∧
      (0 < gralloc_handle_width hnd ↔ 0 < width) ∧
      (0 < gralloc_handle_height hnd ↔ 0 < height) :=
  ⟨_, create_some P native_handle_create width height format usage raw halloc,
    rfl, rfl, Iff.rfl, Iff.rfl⟩

theorem create_dimensions_positive_iff_witness :
    cutils_native_handle_create android64.GRALLOC_PRIVATE_HANDLE_NUM_FDS
        android64.GRALLOC_PRIVATE_HANDLE_NUM_INTS
      = some (garbage { version := 12, numFds := 1, numInts := 10 }) ∧
    ∃ hnd, gralloc_handle_create android64 cutils_native_handle_create 1280 (-720) 1 2
        = some hnd ∧
      gralloc_handle_width hnd = 1280 ∧
      gralloc_handle_height hnd = -720 ∧
      (0 < gralloc_handle_width hnd ↔ (0 : Int) < 1280) ∧
      (0 < gralloc_handle_height hnd ↔ (0 : Int) < -720) :=
  ⟨rfl, create_dimensions_positive_iff android64 cutils_native_handle_create 1280 (-720) 1 2
    (garbage { version := 12, numFds := 1, numInts := 10 }) rfl⟩

/-! ## Validity under mutation -/

/-- C15: validity is preserved by every mutator. For every non-null handle on which
validation returns 0 and for every argument, validation still returns 0 after
`gralloc_handle_set_fd`, after `gralloc_handle_set_stride`, after
`gralloc_handle_set_data`, and after every finite sequence of such calls. Hence, when the
allocator succeeds and writes the header (`version = sizeof(native_handle_t)`, counts as
requested), every state reached from the created handle by mutators validates. -/
theorem mutators_preserve_validity (P : Platform) (hnd : private_handle_t)
    (func : String) (line : Int) (fd stride data_owner : Int) (data : Nat)
    (ms : List Mutation)
    (hvalid : (gralloc_handle_validate_taged P (some hnd) func line).1 = 0) :
    (gralloc_handle_validate_taged P (some (gralloc_handle_set_fd hnd fd)) func line).1 = 0 ∧
    (gralloc_handle_validate_taged P (some (gralloc_handle_set_stride hnd stride))
      func line).1 = 0 ∧
    (gralloc_handle_validate_taged P (some (gralloc_handle_set_data P hnd data data_owner))
      func line).1 = 0 ∧
    (gralloc_handle_validate_taged P (some (applyMutations P hnd ms)) func line).1 = 0 ∧
    (∀ (native_handle_create : Int → Int → Option private_handle_t)
        (width height format usage : Int) (raw : private_handle_t),
      native_handle_create P.GRALLOC_PRIVATE_HANDLE_NUM_FDS
        P.GRALLOC_PRIVATE_HANDLE_NUM_INTS = some raw →
      raw.nativeHandle.version = (sizeof_native_handle_t : Int) →
      raw.nativeHandle.numFds = P.GRALLOC_PRIVATE_HANDLE_NUM_FDS →
      raw.nativeHandle.numInts = P.GRALLOC_PRIVATE_HANDLE_NUM_INTS →
      ∃ created,
        gralloc_handle_create P native_handle_create width height format usage
          = some created ∧
        (gralloc_handle_validate_taged P (some (applyMutations P created ms))
          func line).1 = 0) := by
  refine ⟨?_, ?_, ?_, ?_, ?_⟩
  · rw [← hvalid]
    exact validate_taged_fst_congr P _ _ func func line line rfl rfl
  · rw [← hvalid]
    exact validate_taged_fst_congr P _ _ func func line line rfl rfl
  · rw [← hvalid]
    exact validate_taged_fst_congr P _ _ func func line line rfl rfl
  · rw [← hvalid]
    obtain ⟨h1, h2, _⟩ := applyMutations_keeps P ms hnd
    exact validate_taged_fst_congr P _ _ func func line line h1 h2
  · intro native_handle_create width height format usage raw halloc hversion hnumFds hnumInts
    refine ⟨_, create_some P native_handle_create width height format usage raw halloc, ?_⟩
    obtain ⟨h1, h2, _⟩ := applyMutations_keeps P ms
      { nativeHandle := raw.nativeHandle
        fd := -1, magic := P.GRALLOC_PRIVATE_HANDLE_MAGIC
        width := width, height := height, format := format
        stride := 0, usage := usage, pid := 0, data := 0 }
    have hv : isInt raw.nativeHandle.version := by
      rw [hversion]; decide
    have hsz := (to_size_t_eq_sizeof_iff P.abi _ hv).2 hversion
    rw [validate_taged_some_fst, h1, h2]
    exact if_pos ⟨hsz, hnumInts, hnumFds, rfl⟩

theorem mutators_preserve_validity_witness :
    (gralloc_handle_validate_taged android64 (some sample_handle) "caller" 42).1 = 0 ∧
    (gralloc_handle_validate_taged android64
      (some (gralloc_handle_set_fd sample_handle (-1))) "caller" 42).1 = 0 ∧
    (gralloc_handle_validate_taged android64
      (some (gralloc_handle_set_stride sample_handle 4096)) "caller" 42).1 = 0 ∧
    (gralloc_handle_validate_taged android64
      (some (gralloc_handle_set_data android64 sample_handle 0 0)) "caller" 42).1 = 0 ∧
    (gralloc_handle_validate_taged android64
      (some (applyMutations android64 sample_handle
        [.set_data 4096 1234, .set_fd 3, .set_stride (-1), .set_fd (-1)])) "caller" 42).1
      = 0 :=
  ⟨by decide,
    (mutators_preserve_validity android64 sample_handle "caller" 42 (-1) 4096 0 0
      [.set_data 4096 1234, .set_fd 3, .set_stride (-1), .set_fd (-1)] (by decide)).1,
    (mutators_preserve_validity android64 sample_handle "caller" 42 (-1) 4096 0 0
      [.set_data 4096 1234, .set_fd 3, .set_stride (-1), .set_fd (-1)] (by decide)).2.1,
    (mutators_preserve_validity android64 sample_handle "caller" 42 (-1) 4096 0 0
      [.set_data 4096 1234, .set_fd 3, .set_stride (-1), .set_fd (-1)] (by decide)).2.2.1,
    (mutators_preserve_validity android64 sample_handle "caller" 42 (-1) 4096 0 0
      [.set_data 4096 1234, .set_fd 3, .set_stride (-1), .set_fd (-1)] (by decide)).2.2.2.1⟩

/-! ## Algebra of the mutators -/

/-- C16: the mutators are last-write-wins and mutually independent. On every container,
a setter applied twice gives the state of the second call alone (for
`gralloc_handle_set_fd`, `gralloc_handle_set_stride` and `gralloc_handle_set_data`), and
any two different setters give the same final state in either order. -/
theorem setters_last_write_wins_and_commute (P : Platform) (hnd : private_handle_t)
    (fd1 fd2 stride1 stride2 owner1 owner2 : Int) (data1 data2 : Nat) :
    gralloc_handle_set_fd (gralloc_handle_set_fd hnd fd1) fd2
      = gralloc_handle_set_fd hnd fd2 ∧
    gralloc_handle_set_stride (gralloc_handle_set_stride hnd stride1) stride2
      = gralloc_handle_set_stride hnd stride2 ∧
    gralloc_handle_set_data P (gralloc_handle_set_data P hnd data1 owner1) data2 owner2
      = gralloc_handle_set_data P hnd data2 owner2 ∧
    gralloc_handle_set_stride (gralloc_handle_set_fd hnd fd1) stride1
      = gralloc_handle_set_fd (gralloc_handle_set_stride hnd stride1) fd1 ∧
    gralloc_handle_set_data P (gralloc_handle_set_fd hnd fd1) data1 owner1
      = gralloc_handle_set_fd (gralloc_handle_set_data P hnd data1 owner1) fd1 ∧
    gralloc_handle_set_data P (gralloc_handle_set_stride hnd stride1) data1 owner1
      = gralloc_handle_set_stride (gralloc_handle_set_data P hnd data1 owner1) stride1 :=
  ⟨rfl, rfl, rfl, rfl, rfl, rfl⟩

end Gralloc
